import Mathlib

/-!
A shallow embedding of the parts of the ROCK sandbox-orchestration code base
that its specification talks about, together with theorems checking the
specification's sentences against the embedded code.

Conventions:
* Python dicts are embedded as association lists in insertion order
  (CPython dicts preserve insertion order).
* Python strings are Lean `String`s; machine-level details (file handles,
  sockets) are made explicit as small trace datatypes.
* Fallible Python code is embedded with `Option`/`Except`.
-/

namespace Rock

/-- Modelled from the spec: the `Status` enum of `rock.deployments.constants`
is not under `src/` (only its importers are); the spec fixes its value
strings in the on-disk status JSON as
`"SUCCESS|RUNNING|FAILED|WAITING|CANCELLED"`. -/
inductive Status
  | waiting
  | running
  | success
  | failed
  | cancelled
deriving DecidableEq, Repr

/-- The `.value` string of a `Status` member, as it appears in the JSON. -/
def Status.value : Status → String
  | .waiting => "WAITING"
  | .running => "RUNNING"
  | .success => "SUCCESS"
  | .failed => "FAILED"
  | .cancelled => "CANCELLED"

/-- `Status(<string>)`: enum lookup by value, `none` embeds the `ValueError`
Python raises for an unknown value. -/
def Status.ofValue (s : String) : Option Status :=
  if s = "WAITING" then some .waiting
  else if s = "RUNNING" then some .running
  else if s = "SUCCESS" then some .success
  else if s = "FAILED" then some .failed
  else if s = "CANCELLED" then some .cancelled
  else none

/-- `PhaseStatus` from `rock/deployments/status.py`: a phase's status and
message, defaulting to `WAITING` / `"waiting"`. -/
structure PhaseStatus where
  status : Status := Status.waiting
  message : String := "waiting"
deriving DecidableEq, Repr

/-- `PhaseStatus.to_dict`: `{"status": self.status.value, "message": self.message}`. -/
def PhaseStatus.to_dict (p : PhaseStatus) : String × String :=
  (p.status.value, p.message)

/-- `ServiceStatus` from `rock/deployments/status.py`: the ordered mapping of
phase names to `PhaseStatus` plus the `local_port ↦ container_port` mapping.
Dicts are embedded as association lists in insertion order. -/
structure ServiceStatus where
  phases : List (String × PhaseStatus)
  port_mapping : List (Int × Int)
deriving DecidableEq, Repr

/-- Python-dict assignment `d[k] = v` on the association-list embedding:
overwrite in place if the key exists, append otherwise. -/
def dictInsert {α : Type} [DecidableEq α] {β : Type} :
    List (α × β) → α → β → List (α × β)
  | [], k, v => [(k, v)]
  | (k', v') :: rest, k, v =>
      if k' = k then (k', v) :: rest else (k', v') :: dictInsert rest k v

/-- `ServiceStatus.add_phase`: `self.phases[phase_name] = status`. -/
def ServiceStatus.add_phase (s : ServiceStatus) (phase_name : String)
    (status : PhaseStatus) : ServiceStatus :=
  { s with phases := dictInsert s.phases phase_name status }

/-- `ServiceStatus.__init__`: after field assignment, if `phases` is empty the
constructor adds the two reserved phases `image_pull` and `docker_run` with
default `PhaseStatus()`. -/
def ServiceStatus.init (phases : List (String × PhaseStatus))
    (port_mapping : List (Int × Int)) : ServiceStatus :=
  if phases.isEmpty then
    (ServiceStatus.mk [] port_mapping).add_phase "image_pull" {}
      |>.add_phase "docker_run" {}
  else
    ServiceStatus.mk phases port_mapping

/-- `ServiceStatus.update_status`: `self.phases[phase_name].status = status;
self.phases[phase_name].message = message`.  Python raises `KeyError` when the
phase is absent; that is the `none` case. -/
def ServiceStatus.update_status (s : ServiceStatus) (phase_name : String)
    (status : Status) (message : String) : Option ServiceStatus :=
  if (s.phases.map Prod.fst).contains phase_name then
    some { s with
           phases := s.phases.map fun kv =>
             if kv.1 = phase_name then (kv.1, PhaseStatus.mk status message) else kv }
  else
    none

/-- `ServiceStatus.add_port_mapping`: `self.port_mapping[local_port] = container_port`. -/
def ServiceStatus.add_port_mapping (s : ServiceStatus) (local_port container_port : Int) :
    ServiceStatus :=
  { s with port_mapping := dictInsert s.port_mapping local_port container_port }

/-- The dictionary produced by `ServiceStatus.to_dict`: phase names mapped to
`{"status": …, "message": …}` pairs, and the port mapping unchanged (its keys
are still Python ints here; they only become strings under JSON encoding). -/
structure ServiceStatusDict where
  phases : List (String × (String × String))
  port_mapping : List (Int × Int)
deriving DecidableEq, Repr

/-- `ServiceStatus.to_dict`. -/
def ServiceStatus.to_dict (s : ServiceStatus) : ServiceStatusDict :=
  { phases := s.phases.map fun kv => (kv.1, kv.2.to_dict)
    port_mapping := s.port_mapping }

/-- One entry of `ServiceStatus.from_dict`'s phase loop:
`PhaseStatus(status=Status(phase_data["status"]), message=phase_data["message"])`.
`none` embeds the `ValueError` of an unknown status string. -/
def parsePhaseEntry (kv : String × (String × String)) : Option (String × PhaseStatus) :=
  (Status.ofValue kv.2.1).map fun st => (kv.1, PhaseStatus.mk st kv.2.2)

/-- `ServiceStatus.from_dict`: rebuild the phases (parsing each status string
back through the enum), re-key the port mapping through `int(...)` (identity on
the int-keyed dict `to_dict` produced), and call the constructor. -/
def ServiceStatus.from_dict (d : ServiceStatusDict) : Option ServiceStatus := do
  let phases ← d.phases.mapM parsePhaseEntry
  pure (ServiceStatus.init phases (d.port_mapping.map fun kv => (kv.1, kv.2)))

/-! ### File-system traces for `PersistedServiceStatus._save_to_file`

The persistence layer is embedded as the sequence of file-system operations a
save performs, so that what a concurrent reader of the status path can observe
becomes a statement about the intermediate states of that sequence. -/

/-- A primitive file-system operation. `openTrunc` is `open(path, "w")`
(truncates the file at `path` to empty), `writeData` appends to the open file,
`closeFile` is the end of the `with` block, `rename` is `os.rename`/`os.replace`. -/
inductive FsOp
  | openTrunc (path : String)
  | writeData (path : String) (data : String)
  | closeFile (path : String)
  | rename (src : String) (dst : String)
deriving DecidableEq, Repr

/-- File-system contents: every path maps to its current content (a missing
file reads as `""`; the distinction is irrelevant to the claims below). -/
def FsState : Type := String → String

/-- Effect of one operation on the file-system contents. -/
def FsOp.apply (st : FsState) : FsOp → FsState
  | .openTrunc p => fun q => if q = p then "" else st q
  | .writeData p d => fun q => if q = p then st q ++ d else st q
  | .closeFile _ => st
  | .rename src dst => fun q =>
      if q = dst then st src else if q = src then "" else st q

/-- The contents a reader of `path` can observe while `ops` runs from `st0`:
the value at `path` after every prefix of the trace (including the empty
prefix). -/
def observedContents (st0 : FsState) (path : String) (ops : List FsOp) : List String :=
  (ops.scanl FsOp.apply st0).map fun st => st path

/-- `PersistedServiceStatus.gen_service_status_path`:
`f"{env_vars.ROCK_SERVICE_STATUS_DIR}/{sandbox_id}.json"`; the environment
variable is a parameter here. -/
def gen_service_status_path (status_dir sandbox_id : String) : String :=
  status_dir ++ "/" ++ sandbox_id ++ ".json"

/-- JSON rendering of `ServiceStatus.to_dict` as written by
`json.dump(self.to_dict(), f, indent=2)`.  The rendering here is compact
(`indent=2` only changes insignificant whitespace, which none of the claims
depend on); int keys of `port_mapping` become JSON strings as in Python. -/
def renderServiceStatus (s : ServiceStatus) : String :=
  "\x7b\"phases\": \x7b"
    ++ String.intercalate ", "
        (s.phases.map fun kv =>
          "\"" ++ kv.1 ++ "\": \x7b\"status\": \"" ++ kv.2.status.value
            ++ "\", \"message\": \"" ++ kv.2.message ++ "\"\x7d")
    ++ "\x7d, \"port_mapping\": \x7b"
    ++ String.intercalate ", "
        (s.port_mapping.map fun kv => "\"" ++ toString kv.1 ++ "\": " ++ toString kv.2)
    ++ "\x7d\x7d"

/-- `PersistedServiceStatus._save_to_file` as a file-system trace:
`with open(self._json_path, "w") as f: json.dump(self.to_dict(), f, indent=2)`
is open-with-truncation on the destination path itself, a write of the
serialized JSON, and a close.  There is no temporary file and no rename.
(The single `writeData` is generous to the code: `json.dump` actually issues
many small writes.) -/
def save_to_file_ops (path : String) (s : ServiceStatus) : List FsOp :=
  [FsOp.openTrunc path, FsOp.writeData path (renderServiceStatus s), FsOp.closeFile path]

/-- `PersistedServiceStatus.add_phase`: the updated status together with the
file-system trace of the triggered `_save_to_file`. -/
def persisted_add_phase (status_dir sandbox_id : String) (s : ServiceStatus)
    (phase_name : String) (status : PhaseStatus) : ServiceStatus × List FsOp :=
  let s2 := s.add_phase phase_name status
  (s2, save_to_file_ops (gen_service_status_path status_dir sandbox_id) s2)

/-- `PersistedServiceStatus.update_status`: updated status plus save trace
(`none` when the phase is unknown and the dict lookup raises before saving). -/
def persisted_update_status (status_dir sandbox_id : String) (s : ServiceStatus)
    (phase_name : String) (status : Status) (message : String) :
    Option (ServiceStatus × List FsOp) :=
  (s.update_status phase_name status message).map fun s2 =>
    (s2, save_to_file_ops (gen_service_status_path status_dir sandbox_id) s2)

/-- `PersistedServiceStatus.add_port_mapping`: updated status plus save trace. -/
def persisted_add_port_mapping (status_dir sandbox_id : String) (s : ServiceStatus)
    (local_port container_port : Int) : ServiceStatus × List FsOp :=
  let s2 := s.add_port_mapping local_port container_port
  (s2, save_to_file_ops (gen_service_status_path status_dir sandbox_id) s2)

/-- Does the trace ever rename some file onto `path`?  A "write new file, then
rename" full-file replacement would make this true. -/
def usesRenameInto (path : String) (ops : List FsOp) : Bool :=
  ops.any fun op =>
    match op with
    | FsOp.rename _ dst => dst = path
    | _ => false

/-- The reader-visible atomicity the spec claims: starting from a file holding
`old`, every observable intermediate content of `path` is the complete old or
the complete new JSON. -/
def readerAtomic (old new path : String) (ops : List FsOp) : Prop :=
  ∀ c ∈ observedContents (fun q => if q = path then old else "") path ops,
    c = old ∨ c = new

instance (old new path : String) (ops : List FsOp) :
    Decidable (readerAtomic old new path ops) := by
  unfold readerAtomic; infer_instance

/-! ### `wait_until_alive` from `rock/utils/http.py` -/

/-- One response of the probed function.  Modelled from the spec: the concrete
response class (`IsAliveResponse` of `rock.actions`, not under `src/`) is used
by `wait_until_alive` only through its Python truthiness and its `.message`
attribute. -/
structure AwaitResponse where
  truthy : Bool
  message : String
deriving DecidableEq, Repr

/-- The polling loop of `wait_until_alive`.  The wall clock
(`while time.time() < end_time`) is abstracted into the finite list of
responses the probed function would return while time remains; the second
argument is the running `await_response` variable (the last response seen,
`none` before the first call).  `Except.ok i` is the return after the call at
index `i` yielded a truthy response; `Except.error m` is the `TimeoutError`,
carrying `last_response_message`, which line 173 computes as
`await_response.message if await_response else None` — note this re-tests the
*truthiness* of the last response (the same test that gates the early return),
not whether the function was ever called. -/
def wait_until_alive_loop :
    List AwaitResponse → Option AwaitResponse → Except (Option String) Nat
  | [], last =>
      Except.error
        (match last with
         | some r => if r.truthy then some r.message else none
         | none => none)
  | r :: rs, _ =>
      if r.truthy then Except.ok 0
      else (wait_until_alive_loop rs (some r)).map Nat.succ

/-- `wait_until_alive`, entered with `await_response = None`. -/
def wait_until_alive (responses : List AwaitResponse) : Except (Option String) Nat :=
  wait_until_alive_loop responses none

/-- The `TimeoutError` message text built by `wait_until_alive`; `"None"` is
how Python renders a `None` `last_response_message` in the f-string — which
on the timeout path is always the case, since any response still held at the
raise is falsy (see `wait_until_alive_loop`). -/
def wait_until_alive_timeout_message (timeout : String) (n_attempts : Nat)
    (last : Option String) : String :=
  "Runtime did not start within " ++ timeout ++ "s (tried to connect "
    ++ toString n_attempts ++ " times). The last await response was:\n"
    ++ (match last with | some m => m | none => "None")

/-! ### Exception transfer and the `is_alive` probe
(`rock/sandbox/remote_sandbox.py`) -/

/-- The `_ExceptionTransfer` envelope of a 511 response:
`{class_path, message, traceback, extra_info}`.  `extra_info` (an arbitrary
JSON object in Python) is embedded as an association list of strings. -/
structure ExceptionTransfer where
  class_path : String
  message : String
  traceback : String
  extra_info : List (String × String)
deriving DecidableEq, Repr

/-- How the Python runtime resolves `exc_transfer.class_path` in
`_handle_transfer_exception`: the module may fail to import (`ImportError`),
the module may lack the class (`getattr` raises `AttributeError`), calling the
class may fail (`TypeError`), or an instance is constructed — in which case it
is caught by `except Exception` clauses iff the class derives from
`Exception` (e.g. `builtins.KeyboardInterrupt` constructs but derives only
from `BaseException`). -/
inductive ClassResolution
  | importFails
  | classMissing
  | constructFails
  | constructs (isExceptionSubclass : Bool)
deriving DecidableEq, Repr

/-- The exception object a code path raises: the class it was built from, the
message, the `extra_info` attribute (`none` = the attribute was never
assigned), and whether `except Exception` catches it. -/
structure RaisedException where
  className : String
  message : String
  extra_info : Option (List (String × String))
  isException : Bool
deriving DecidableEq, Repr

/-- Class path of the SDK-side fallback exception class. -/
def rockletExceptionClass : String := "rock.rocklet.exceptions.RockletException"

/-- `RemoteSandboxRuntime._handle_transfer_exception`, as the exception it
raises (it always raises).  Branches, in source order:
* module not importable → `raise RockletException(exc_transfer.message) from
  None` — note this happens *before* the `exception.extra_info = …`
  assignment, so the raised exception has no `extra_info`;
* class missing (`AttributeError`) or constructor failure (`TypeError`) →
  fallback `RockletException(exc_transfer.message)`, then `extra_info` is
  assigned and the exception raised;
* class constructs → instance of the transferred class with the message,
  `extra_info` assigned, raised; it is `Exception`-catchable iff the class
  derives from `Exception`. -/
def handle_transfer_exception (resolve : String → ClassResolution)
    (t : ExceptionTransfer) : RaisedException :=
  match resolve t.class_path with
  | .importFails =>
      { className := rockletExceptionClass, message := t.message
        extra_info := none, isException := true }
  | .classMissing =>
      { className := rockletExceptionClass, message := t.message
        extra_info := some t.extra_info, isException := true }
  | .constructFails =>
      { className := rockletExceptionClass, message := t.message
        extra_info := some t.extra_info, isException := true }
  | .constructs isExc =>
      { className := t.class_path, message := t.message
        extra_info := some t.extra_info, isException := isExc }

/-- The part of a `requests.Response` that `_handle_response_errors` inspects:
the status code and, for 511 bodies, the parsed
`response.json()["rockletexception"]` envelope (`none` when the body lacks the
key or cannot be parsed, which makes the lookup itself raise). -/
structure RawResponse where
  status_code : Nat
  transfer_body : Option ExceptionTransfer
deriving DecidableEq, Repr

/-- The `KeyError`/JSON error raised when a 511 body carries no well-formed
`rockletexception` envelope. -/
def envelopeLookupError : RaisedException :=
  { className := "builtins.KeyError", message := "rockletexception"
    extra_info := none, isException := true }

/-- The `requests.exceptions.HTTPError` that `response.raise_for_status()`
raises for a 4xx/5xx status. -/
def httpStatusError (code : Nat) : RaisedException :=
  { className := "requests.exceptions.HTTPError", message := toString code
    extra_info := none, isException := true }

/-- `RemoteSandboxRuntime._handle_response_errors`: on a 511 response, parse
the envelope and reraise via `_handle_transfer_exception`; otherwise
`raise_for_status`. -/
def handle_response_errors (resolve : String → ClassResolution)
    (r : RawResponse) : Except RaisedException Unit :=
  if r.status_code = 511 then
    match r.transfer_body with
    | some t => Except.error (handle_transfer_exception resolve t)
    | none => Except.error envelopeLookupError
  else if 400 ≤ r.status_code then Except.error (httpStatusError r.status_code)
  else Except.ok ()

/-- Is the computation a raise (`Except.error`)? -/
def raises {α : Type} (e : Except RaisedException α) : Bool :=
  match e with
  | .error _ => true
  | .ok _ => false

/-- `IsAliveResponse`: the `{is_alive, message}` pair `_is_alive` returns. -/
structure IsAliveResponse where
  is_alive : Bool
  message : String
deriving DecidableEq, Repr

/-- The outcome of the `requests.get(f"{api_url}/is_alive", …)` call inside
`_is_alive`, as distinguished by the code:
* `success`: status 200 and the body validates as an `IsAliveResponse`;
* `transfer`: status 511 with a well-formed envelope;
* `otherStatus`: any other status code, with the body's `detail` field;
* `malformedBody`: `response.json()` or the response-model validation raised
  (any status), `text` being the exception's text;
* `transportFailure`: the request itself raised `requests.RequestException`. -/
inductive ProbeOutcome
  | success (r : IsAliveResponse)
  | transfer (t : ExceptionTransfer)
  | otherStatus (code : Nat) (detail : String)
  | malformedBody (text : String)
  | transportFailure (text : String)
deriving DecidableEq, Repr

/-- The `"Failed to connect to {host}\n" + traceback.format_exc()` message of
the two `except` handlers in `_is_alive`. -/
def connectFailureMessage (host text : String) : String :=
  "Failed to connect to " ++ host ++ "\n" ++ text

/-- The message built for a non-200/non-511 status code. -/
def statusCodeMessage (api_url : String) (code : Nat) (detail : String) : String :=
  "Status code " ++ toString code ++ " from " ++ api_url
    ++ "/is_alive. Message: " ++ detail

/-- `RemoteSandboxRuntime._is_alive`.  A 200 body is returned as is; a 511
envelope is reraised by `_handle_transfer_exception` *inside* the `try`, so
the raised exception is caught by the trailing `except Exception` handler —
and only escapes the probe when the rehydrated class is not an `Exception`
subclass; other status codes, malformed bodies and transport failures all
return `is_alive=False` with the captured error text. -/
def is_alive_probe (resolve : String → ClassResolution) (host api_url : String)
    (o : ProbeOutcome) : Except RaisedException IsAliveResponse :=
  match o with
  | .success r => Except.ok r
  | .transfer t =>
      let e := handle_transfer_exception resolve t
      if e.isException then
        Except.ok { is_alive := false
                    message := connectFailureMessage host ("Traceback: " ++ t.traceback) }
      else
        Except.error e
  | .otherStatus code detail =>
      Except.ok { is_alive := false, message := statusCodeMessage api_url code detail }
  | .malformedBody text =>
      Except.ok { is_alive := false, message := connectFailureMessage host text }
  | .transportFailure text =>
      Except.ok { is_alive := false, message := connectFailureMessage host text }

/-! ### `RemoteSandboxRuntime.upload` -/

/-- What `Path(request.source_path).resolve()` turns out to be. -/
inductive PathKind
  | directory
  | regularFile
  | neither
deriving DecidableEq, Repr

/-- Which bytes a multipart POST to `/upload` streams. -/
inductive UploadSource
  | tempZip
  | sourceFile
deriving DecidableEq, Repr

/-- One observable step of `upload`: archiving the source directory to the
temporary `zipped_transfer.zip`, or one multipart POST with the given file
source and `unzip` form field (`"true"`/`"false"` in the Python form data). -/
inductive UploadStep
  | makeZipArchive
  | postMultipart (source : UploadSource) (unzip : Bool)
deriving DecidableEq, Repr

/-- `RemoteSandboxRuntime.upload` as its observable step trace: a directory is
first archived and the zip streamed with `unzip="true"`; a regular file is
streamed directly with `unzip="false"`; anything else raises `ValueError`
before any request is made. -/
def upload (kind : PathKind) (source_path : String) : Except String (List UploadStep) :=
  match kind with
  | .directory => Except.ok [UploadStep.makeZipArchive, UploadStep.postMultipart .tempZip true]
  | .regularFile => Except.ok [UploadStep.postMultipart .sourceFile false]
  | .neither => Except.error ("Source path " ++ source_path ++ " is not a file or directory")

/-- Number of multipart POSTs in an upload trace. -/
def countPosts (steps : List UploadStep) : Nat :=
  steps.countP fun st =>
    match st with
    | UploadStep.postMultipart _ _ => true
    | _ => false

/-! ### Memory-size parsing (`rock/utils/format.py`) -/

/-- Characters allowed in the numeric part of a memory size: digits and the
decimal point. -/
def isNumChar (c : Char) : Bool := c.isDigit || c = '.'

/-- Whitespace trimming on the character-list level (`str.strip()`). -/
def trimChars (l : List Char) : List Char :=
  ((l.dropWhile Char.isWhitespace).reverse.dropWhile Char.isWhitespace).reverse

/-- Numeric value of a digit string (most significant digit first). -/
def digitsToNat (l : List Char) : Nat :=
  l.foldl (fun acc c => acc * 10 + (c.toNat - 48)) 0

/-- Modelled from the spec: the unit table of
`rock.utils.format.parse_memory_size` (the module is not under `src/`): the
spec grammar's `(b|k|m|g|t)(b)?` alternatives (already lowercased here), each
a power of 1024, the empty unit meaning bytes. -/
def unitMultiplier (u : List Char) : Option Nat :=
  if u = [] ∨ u = ['b'] then some 1
  else if u = ['k'] ∨ u = ['k', 'b'] then some 1024
  else if u = ['m'] ∨ u = ['m', 'b'] then some (1024 ^ 2)
  else if u = ['g'] ∨ u = ['g', 'b'] then some (1024 ^ 3)
  else if u = ['t'] ∨ u = ['t', 'b'] then some (1024 ^ 4)
  else none

/-- Modelled from the spec: the `<number>[.<number>]?` shape — a nonempty
digit run, then optionally a dot followed by a nonempty digit run, and
nothing else (so an empty numeric part or multiple decimal points fail). -/
def validNumber (l : List Char) : Bool :=
  let intD := l.takeWhile Char.isDigit
  let rest := l.dropWhile Char.isDigit
  !intD.isEmpty &&
    (match rest with
     | [] => true
     | '.' :: frac => !frac.isEmpty && frac.all Char.isDigit
     | _ => false)

/-- Modelled from the spec: `int(float(<number>) * mult)` with exact rational
truncation ("fractional values truncated to int"); `10 ^ frac.length` is the
denominator of the decimal fraction. -/
def memValue (numPart : List Char) (mult : Nat) : Nat :=
  let intD := numPart.takeWhile Char.isDigit
  let frac := (numPart.dropWhile Char.isDigit).tail
  digitsToNat intD * mult + digitsToNat frac * mult / 10 ^ frac.length

/-- The two error kinds of `parse_memory_size`: `"Invalid memory size
format"` and `"Unknown memory unit"` (as distinguished by
`tests/unit/utils/test_format.py`). -/
inductive MemParseError
  | invalidFormat
  | unknownUnit
deriving DecidableEq, Repr

/-- Modelled from the spec: the core of `rock.utils.format.parse_memory_size`
on the trimmed character list: split off the numeric `<number>[.<number>]?`
part, skip the `\s*` separator, resolve the unit case-insensitively.  A
malformed number (empty, multiple decimal points) or a non-alphabetic residue
is `INVALID_FORMAT`; an alphabetic but unrecognized unit is the
unknown-unit error. -/
def parse_memory_size_chars (l : List Char) : Except MemParseError Nat :=
  let numPart := l.takeWhile isNumChar
  let unitPart := (l.dropWhile isNumChar).dropWhile Char.isWhitespace
  if !(validNumber numPart) then Except.error MemParseError.invalidFormat
  else
    match unitMultiplier (unitPart.map Char.toLower) with
    | some mult => Except.ok (memValue numPart mult)
    | none =>
        Except.error
          (if unitPart.all Char.isAlpha then MemParseError.unknownUnit
           else MemParseError.invalidFormat)

/-- Modelled from the spec: `rock.utils.format.parse_memory_size` — trim
surrounding whitespace, then parse. -/
def parse_memory_size (s : String) : Except MemParseError Nat :=
  parse_memory_size_chars (trimChars s.data)

/-! ### NOHUP detached execution (client SDK `arun` /
`DefaultAgent._agent_run`) -/

/-- The `Observation` result of a sandbox run (the fields the NOHUP path
uses). -/
structure Observation where
  output : String
  exit_code : Int
  failure_reason : String
deriving DecidableEq, Repr

/-- A command the client runs in the sandbox session during a NOHUP launch. -/
inductive SessionCommand
  | launch (cmd : String) (tmp_file : String)
  | waitPoll (pid : Nat)
  | catFile (tmp_file : String)
  | headFile (n : Nat) (tmp_file : String)
  | statFile (tmp_file : String)
deriving DecidableEq, Repr

/-- Outcome of submitting the launcher (`start_nohup_process`): the launcher
returned and PID extraction from the `<PID_PREFIX>…<PID_SUFFIX>` marker gave
`pid?` (`none` when the stdout lacks the marker); or the upstream session
call raised `httpx.ReadTimeout`; or `start_nohup_process` itself returned an
error `Observation`. -/
inductive LaunchOutcome
  | returned (pid? : Option Nat)
  | readTimeout
  | errorResponse (obs : Observation)
deriving DecidableEq, Repr

/-- Modelled from the spec: the sandbox-side effects one NOHUP run can
observe (`Sandbox.arun` / `start_nohup_process` / `handle_nohup_output` of
`rock/sdk/sandbox/client.py` are not under `src/`): the launcher outcome, the
`(success, message)` pair of `wait_for_process_completion`, and the results
of the `stat`, `cat` and `head -c` commands `handle_nohup_output` may run. -/
structure NohupEnv where
  launch : LaunchOutcome
  waitSuccess : Bool
  waitMessage : String
  statResult : Observation
  catResult : Observation
  headResult : Observation
deriving DecidableEq, Repr

/-- The `/tmp/tmp_<ns-timestamp>.out` redirection target
(`tmp_file = f"/tmp/tmp_{timestamp}.out"`). -/
def nohup_tmp_file (timestamp : String) : String :=
  "/tmp/tmp_" ++ (timestamp ++ ".out")

/-- The size reported by the Ignore-mode `stat` command: its numeric stdout
when it exited 0, `none` otherwise. -/
def parseStatSize (obs : Observation) : Option Nat :=
  if obs.exit_code = 0 then
    let d := trimChars obs.output.data
    if !d.isEmpty && d.all Char.isDigit then some (digitsToNat d) else none
  else none

/-- Two-decimal rendering of `hundredths / 100`. -/
def twoDecimals (hundredths : Nat) : String :=
  toString (hundredths / 100) ++ "."
    ++ (if hundredths % 100 < 10 then "0" else "") ++ toString (hundredths % 100)

/-- Modelled from the spec: the human-readable size in the Ignore-mode
`File size:` line of `handle_nohup_output` (not under `src/`); the unit tests
pin `2048 → "2.00 KB"` and `512 → "512 bytes"`. -/
def humanReadableSize (n : Nat) : String :=
  if n < 1024 then toString n ++ " bytes"
  else if n < 1024 ^ 2 then twoDecimals (n * 100 / 1024) ++ " KB"
  else if n < 1024 ^ 3 then twoDecimals (n * 100 / 1024 ^ 2) ++ " MB"
  else twoDecimals (n * 100 / 1024 ^ 3) ++ " GB"

/-- Modelled from the spec: the Ignore-mode hint pointing at the tmp path
without streaming the log content (wording as asserted by the unit tests'
substring checks). -/
def nohupIgnoreHint (tmp_file : String) : String :=
  "Output was redirected to " ++ (tmp_file ++ " without streaming the log content.")

/-- Modelled from the spec: `handle_nohup_output` (not under `src/`) — Full
collect (`cat`), Limited (`head -c N`), or Ignore (`stat` for an optional
`File size:` line appended to the hint); exit code 0 iff
`wait_for_process_completion` succeeded, failure reason carrying its message
otherwise (failure also prepends the message to the Ignore-mode output).
The second component is the trace of session commands it runs. -/
def handle_nohup_output (env : NohupEnv) (tmp_file : String) (ignore_output : Bool)
    (response_limited_bytes : Option Nat) : Observation × List SessionCommand :=
  let exit : Int := if env.waitSuccess then 0 else 1
  let fail : String := if env.waitSuccess then "" else env.waitMessage
  if ignore_output then
    let base :=
      if env.waitSuccess then nohupIgnoreHint tmp_file
      else env.waitMessage ++ ("\n" ++ nohupIgnoreHint tmp_file)
    let out :=
      match parseStatSize env.statResult with
      | some n => base ++ ("\nFile size: " ++ humanReadableSize n)
      | none => base
    (Observation.mk out exit fail, [SessionCommand.statFile tmp_file])
  else
    match response_limited_bytes with
    | some n =>
        (Observation.mk env.headResult.output exit fail, [SessionCommand.headFile n tmp_file])
    | none =>
        (Observation.mk env.catResult.output exit fail, [SessionCommand.catFile tmp_file])

/-- The message of `DefaultAgent._agent_run`'s `except ReadTimeout` handler
(`rock/sdk/sandbox/agent/base.py`). -/
def nohup_timeout_message (cmd : String) : String :=
  "Command execution failed due to timeout: '"
    ++ (cmd ++ "'. This may be caused by an interactive command that requires user input.")

/-- The message of the `pid is None` branch of `DefaultAgent._agent_run`. -/
def pid_extract_failure_message : String :=
  "Failed to submit command, nohup failed to extract PID"

/-- Modelled from the spec: the NOHUP execution path shared by
`Sandbox.arun(mode=NOHUP)` (not under `src/`) and `DefaultAgent._agent_run`
(under `src/`, which fixes `ignore_output=False` and no byte limit): submit
the launcher; when no PID marker was found return the launch-failure
`Observation` and run nothing further; when the upstream call raised a
read-timeout return the timeout `Observation`; otherwise wait for completion
and collect output through `handle_nohup_output`.  The second component is
the trace of session commands run for this launch. -/
def arun_nohup (env : NohupEnv) (cmd timestamp : String) (ignore_output : Bool)
    (response_limited_bytes : Option Nat) : Observation × List SessionCommand :=
  let tmp_file := nohup_tmp_file timestamp
  match env.launch with
  | .readTimeout =>
      (Observation.mk (nohup_timeout_message cmd) 1 (nohup_timeout_message cmd),
        [SessionCommand.launch cmd tmp_file])
  | .errorResponse obs => (obs, [SessionCommand.launch cmd tmp_file])
  | .returned none =>
      (Observation.mk pid_extract_failure_message 1 pid_extract_failure_message,
        [SessionCommand.launch cmd tmp_file])
  | .returned (some pid) =>
      let r := handle_nohup_output env tmp_file ignore_output response_limited_bytes
      (r.1, SessionCommand.launch cmd tmp_file :: SessionCommand.waitPoll pid :: r.2)

/-! ## Theorems -/

/-! ### Generic helper lemmas -/

theorem uint32_le_toNat {a b : UInt32} (h : a ≤ b) : a.toNat ≤ b.toNat := h

theorem append_ne_empty_right (a b : String) (h : b ≠ "") : a ++ b ≠ "" := by
  intro hc
  apply h
  have hd := congrArg String.data hc
  rw [String.data_append] at hd
  exact String.ext (List.append_eq_nil.mp (by simpa using hd)).2

theorem infix_append_left {α : Type} {l₁ l₂ : List α} (r : List α) (h : l₁ <:+: l₂) :
    l₁ <:+: l₂ ++ r := by
  obtain ⟨s, t, rfl⟩ := h
  exact ⟨s, t ++ r, by simp⟩

theorem infix_append_right {α : Type} {l₁ l₂ : List α} (l : List α) (h : l₁ <:+: l₂) :
    l₁ <:+: l ++ l₂ := by
  obtain ⟨s, t, rfl⟩ := h
  exact ⟨l ++ s, t, by simp⟩

theorem infix_refl' {α : Type} (l : List α) : l <:+: l := ⟨[], [], by simp⟩

theorem mem_of_infix {α : Type} {pat l : List α} (h : pat <:+: l) {c : α} (hc : c ∈ pat) :
    c ∈ l := by
  obtain ⟨s, t, rfl⟩ := h
  simp [hc]

/-! ### Status / ServiceStatus round-trip (C10) -/

theorem Status.ofValue_value (st : Status) : Status.ofValue st.value = some st := by
  cases st <;> rfl

theorem mapM_parsePhaseEntry (l : List (String × PhaseStatus)) :
    (l.map fun kv => (kv.1, kv.2.to_dict)).mapM parsePhaseEntry = some l := by
  induction l with
  | nil => rfl
  | cons kv rest ih =>
      simp only [PhaseStatus.to_dict] at ih
      simp only [List.map_cons, List.mapM_cons, parsePhaseEntry, PhaseStatus.to_dict,
        Status.ofValue_value, Option.map_some', Option.pure_def, Option.bind_eq_bind, ih,
        Option.some_bind]

/-- C10: for every `ServiceStatus` with a non-empty phases mapping,
`from_dict (to_dict s)` reconstructs `s` exactly — same phase names in the
same order with the same status and message, and the same integer-keyed port
mapping — so a read-role replica loses no information. -/
theorem service_status_roundtrip (s : ServiceStatus) (h : s.phases ≠ []) :
    ServiceStatus.from_dict s.to_dict = some s := by
  unfold ServiceStatus.from_dict ServiceStatus.to_dict
  simp only [mapM_parsePhaseEntry, Option.pure_def, Option.bind_eq_bind, Option.some_bind,
    Option.some.injEq]
  unfold ServiceStatus.init
  rw [if_neg (by simpa using h)]
  simp

/-- Witness for C10 at a concrete one-phase status. -/
theorem service_status_roundtrip_witness :
    ServiceStatus.from_dict
        (ServiceStatus.to_dict (ServiceStatus.mk [("docker_run", PhaseStatus.mk Status.running "go")] [(8080, 80)]))
      = some (ServiceStatus.mk [("docker_run", PhaseStatus.mk Status.running "go")] [(8080, 80)]) :=
  service_status_roundtrip _ (by decide)

/-! ### Persisted status saves (C1) -/

theorem renderServiceStatus_ne_empty (s : ServiceStatus) : renderServiceStatus s ≠ "" := by
  unfold renderServiceStatus
  exact append_ne_empty_right _ _ (by decide)

theorem observedContents_save (old path : String) (s : ServiceStatus) :
    observedContents (fun q => if q = path then old else "") path (save_to_file_ops path s)
      = [old, "", renderServiceStatus s, renderServiceStatus s] := by
  simp [observedContents, save_to_file_ops, List.scanl, FsOp.apply, String.empty_append]

theorem not_readerAtomic_save (old path : String) (s : ServiceStatus) (hold : old ≠ "") :
    ¬ readerAtomic old (renderServiceStatus s) path (save_to_file_ops path s) := by
  intro h
  have hmem : "" ∈ observedContents (fun q => if q = path then old else "")
      path (save_to_file_ops path s) := by
    rw [observedContents_save]; simp
  rcases h "" hmem with h1 | h1
  · exact hold h1.symm
  · exact renderServiceStatus_ne_empty s h1.symm

theorem usesRenameInto_save (path : String) (s : ServiceStatus) :
    usesRenameInto path (save_to_file_ops path s) = false := rfl

/-- C1 counterexample: a concrete `add_port_mapping` on a persisted status.
Its save trace performs no rename at all, and starting from the previously
saved JSON a concurrent reader of the path can observe a state that is
neither the old nor the new JSON (the truncated empty file), so the claimed
write-new-then-rename full-file replacement is false as stated. -/
theorem persisted_save_no_rename_counterexample :
    ¬ (usesRenameInto (gen_service_status_path "/rock/status" "sb1")
         ((persisted_add_port_mapping "/rock/status" "sb1" (ServiceStatus.init [] []) 8080 80).2) = true
       ∧ readerAtomic (renderServiceStatus (ServiceStatus.init [] []))
           (renderServiceStatus
             ((persisted_add_port_mapping "/rock/status" "sb1" (ServiceStatus.init [] []) 8080 80).1))
           (gen_service_status_path "/rock/status" "sb1")
           ((persisted_add_port_mapping "/rock/status" "sb1" (ServiceStatus.init [] []) 8080 80).2)) := by
  decide

/-- C1 (amended): every persisted update (`add_phase`, `update_status`,
`add_port_mapping`) saves by truncating `<status_dir>/<sandbox_id>.json` in
place and writing the new JSON into it — open-truncate, write, close, no
temporary file and no rename — so whenever the file previously held a
non-empty old JSON, a concurrent reader can observe an intermediate state
(the truncated empty file) that is neither the old nor the new JSON. -/
theorem persisted_save_writes_in_place (status_dir sandbox_id phase_name message : String)
    (s : ServiceStatus) (ph : PhaseStatus) (st : Status) (lp cp : Int) (old : String)
    (hold : old ≠ "") :
    ((persisted_add_phase status_dir sandbox_id s phase_name ph).2
        = save_to_file_ops (gen_service_status_path status_dir sandbox_id)
            (s.add_phase phase_name ph)
      ∧ usesRenameInto (gen_service_status_path status_dir sandbox_id)
          (persisted_add_phase status_dir sandbox_id s phase_name ph).2 = false
      ∧ ¬ readerAtomic old (renderServiceStatus (s.add_phase phase_name ph))
            (gen_service_status_path status_dir sandbox_id)
            (persisted_add_phase status_dir sandbox_id s phase_name ph).2)
    ∧ ((persisted_add_port_mapping status_dir sandbox_id s lp cp).2
        = save_to_file_ops (gen_service_status_path status_dir sandbox_id)
            (s.add_port_mapping lp cp)
      ∧ usesRenameInto (gen_service_status_path status_dir sandbox_id)
          (persisted_add_port_mapping status_dir sandbox_id s lp cp).2 = false
      ∧ ¬ readerAtomic old (renderServiceStatus (s.add_port_mapping lp cp))
            (gen_service_status_path status_dir sandbox_id)
            (persisted_add_port_mapping status_dir sandbox_id s lp cp).2)
    ∧ (∀ r, persisted_update_status status_dir sandbox_id s phase_name st message = some r →
        r.2 = save_to_file_ops (gen_service_status_path status_dir sandbox_id) r.1
        ∧ usesRenameInto (gen_service_status_path status_dir sandbox_id) r.2 = false
        ∧ ¬ readerAtomic old (renderServiceStatus r.1)
              (gen_service_status_path status_dir sandbox_id) r.2) := by
  refine ⟨⟨rfl, rfl, not_readerAtomic_save old _ _ hold⟩,
          ⟨rfl, rfl, not_readerAtomic_save old _ _ hold⟩, ?_⟩
  intro r hr
  unfold persisted_update_status at hr
  rcases Option.map_eq_some'.mp hr with ⟨s2, _, rfl⟩
  exact ⟨rfl, rfl, not_readerAtomic_save old _ _ hold⟩

/-- Witness for C1's amended theorem at a concrete update. -/
theorem persisted_save_writes_in_place_witness :
    usesRenameInto (gen_service_status_path "/rock/status" "sb1")
        (persisted_add_phase "/rock/status" "sb1" (ServiceStatus.init [] []) "unpack" (PhaseStatus.mk Status.waiting "waiting")).2 = false
    ∧ ¬ readerAtomic "old"
          (renderServiceStatus ((ServiceStatus.init [] []).add_port_mapping 8080 80))
          (gen_service_status_path "/rock/status" "sb1")
          (persisted_add_port_mapping "/rock/status" "sb1" (ServiceStatus.init [] []) 8080 80).2 :=
  ⟨(persisted_save_writes_in_place "/rock/status" "sb1" "unpack" "done" (ServiceStatus.init [] [])
      (PhaseStatus.mk Status.waiting "waiting") Status.success 8080 80 "old" (by decide)).1.2.1,
   (persisted_save_writes_in_place "/rock/status" "sb1" "unpack" "done" (ServiceStatus.init [] [])
      (PhaseStatus.mk Status.waiting "waiting") Status.success 8080 80 "old" (by decide)).2.1.2.2⟩

/-! ### Upload (C9) -/

/-- C9: a directory source is archived to a temporary zip and sent as one
multipart POST with `unzip="true"`; a regular file is sent as one multipart
POST of the file itself with `unzip="false"`; any other path raises
`ValueError` and performs no POST. -/
theorem upload_spec (source_path : String) :
    upload PathKind.directory source_path
        = Except.ok [UploadStep.makeZipArchive, UploadStep.postMultipart UploadSource.tempZip true]
    ∧ countPosts [UploadStep.makeZipArchive, UploadStep.postMultipart UploadSource.tempZip true] = 1
    ∧ upload PathKind.regularFile source_path
        = Except.ok [UploadStep.postMultipart UploadSource.sourceFile false]
    ∧ countPosts [UploadStep.postMultipart UploadSource.sourceFile false] = 1
    ∧ upload PathKind.neither source_path
        = Except.error ("Source path " ++ source_path ++ " is not a file or directory") :=
  ⟨rfl, rfl, rfl, rfl, rfl⟩

/-! ### wait_until_alive (C3) -/

theorem wait_loop_first_truthy (resps : List AwaitResponse) :
    ∀ acc : Option AwaitResponse, (∃ r ∈ resps, r.truthy = true) →
      ∃ i r, wait_until_alive_loop resps acc = Except.ok i
        ∧ resps[i]? = some r ∧ r.truthy = true
        ∧ ∀ j, j < i → ∀ r', resps[j]? = some r' → r'.truthy = false := by
  induction resps with
  | nil => intro acc hex; simp at hex
  | cons r0 rs ih =>
      intro acc hex
      unfold wait_until_alive_loop
      by_cases h0 : r0.truthy = true
      · exact ⟨0, r0, by simp [h0], by simp, h0, fun j hj => by omega⟩
      · have hex' : ∃ r ∈ rs, r.truthy = true := by
          rcases hex with ⟨r, hr, htr⟩
          rcases List.mem_cons.mp hr with rfl | hr'
          · exact absurd htr h0
          · exact ⟨r, hr', htr⟩
        obtain ⟨i, r, hloop, hget, htr, hmin⟩ := ih (some r0) hex'
        refine ⟨i + 1, r, ?_, by simpa using hget, htr, ?_⟩
        · rw [if_neg h0, hloop]; rfl
        · intro j hj r' hget'
          cases j with
          | zero =>
              simp only [List.getElem?_cons_zero, Option.some.injEq] at hget'
              subst hget'
              exact Bool.not_eq_true _ ▸ (by simpa using h0)
          | succ j' => exact hmin j' (by omega) r' (by simpa using hget')

theorem wait_loop_all_false (resps : List AwaitResponse) :
    ∀ acc : Option AwaitResponse, (∀ r ∈ resps, r.truthy = false) →
      (∀ r, acc = some r → r.truthy = false) →
      wait_until_alive_loop resps acc = Except.error none := by
  induction resps with
  | nil =>
      intro acc _ hacc
      unfold wait_until_alive_loop
      cases acc with
      | none => rfl
      | some r => simp [hacc r rfl]
  | cons r0 rs ih =>
      intro acc hall hacc
      unfold wait_until_alive_loop
      rw [if_neg (by simp [hall r0 (by simp)])]
      rw [ih (some r0) (fun r hr => hall r (List.mem_cons_of_mem _ hr))
          (fun r hr => by injection hr with hr'; rw [← hr']; exact hall r0 (by simp))]
      rfl

/-- C3 counterexample: with a single falsy response received before the
timeout, the claim as stated demands the raised error carry that response's
message (`some "x"`), but line 173 re-tests the truthiness of the last
response at the raise — and a response surviving to that point is falsy — so
the program's error carries `None`. -/
theorem wait_until_alive_timeout_counterexample :
    wait_until_alive [AwaitResponse.mk false "x"] = Except.error none
    ∧ ¬ (wait_until_alive [AwaitResponse.mk false "x"] = Except.error (some "x")) := by
  refine ⟨rfl, fun h => ?_⟩
  rw [show wait_until_alive [AwaitResponse.mk false "x"]
        = Except.error (none : Option String) from rfl] at h
  simp at h

/-- C3 (amended): `wait_until_alive` polls the probe while time remains and
returns at the first call whose response is truthy (no earlier call was
truthy); when no call is truthy before the timeout it raises the timeout
error whose message always carries `None` — any response still held at the
raise is falsy, so `await_response.message if await_response else None`
yields `None` whether or not the probe was ever called. -/
theorem wait_until_alive_spec (resps : List AwaitResponse) :
    ((∃ r ∈ resps, r.truthy = true) →
      ∃ i r, wait_until_alive resps = Except.ok i
        ∧ resps[i]? = some r ∧ r.truthy = true
        ∧ ∀ j, j < i → ∀ r', resps[j]? = some r' → r'.truthy = false)
  ∧ ((∀ r ∈ resps, r.truthy = false) → wait_until_alive resps = Except.error none)
  ∧ wait_until_alive ([] : List AwaitResponse) = Except.error none := by
  refine ⟨fun hex => wait_loop_first_truthy resps none hex,
    fun hall => wait_loop_all_false resps none hall (fun r hr => nomatch hr), rfl⟩

/-- Witness for C3's amended theorem: truthy at index 1, and an all-falsy run
whose timeout error carries `none`. -/
theorem wait_until_alive_spec_witness :
    (∃ i r, wait_until_alive [AwaitResponse.mk false "a", AwaitResponse.mk true "b"] = Except.ok i
      ∧ [AwaitResponse.mk false "a", AwaitResponse.mk true "b"][i]? = some r ∧ r.truthy = true
      ∧ ∀ j, j < i → ∀ r',
          [AwaitResponse.mk false "a", AwaitResponse.mk true "b"][j]? = some r' →
            r'.truthy = false)
    ∧ wait_until_alive [AwaitResponse.mk false "x"] = Except.error none :=
  ⟨(wait_until_alive_spec [AwaitResponse.mk false "a", AwaitResponse.mk true "b"]).1
      ⟨AwaitResponse.mk true "b", by simp, rfl⟩,
   (wait_until_alive_spec [AwaitResponse.mk false "x"]).2.1 (by decide)⟩

/-! ### Exception transfer (C5) and the is_alive probe (C4) -/

/-- A concrete transfer envelope whose `class_path` names a module that
cannot be imported. -/
def unimportableTransfer : ExceptionTransfer :=
  ExceptionTransfer.mk "nonexistent_module_xyz.SomeError" "boom" "tb" [("k", "v")]

/-- C5 counterexample: for a 511 envelope whose module cannot be imported,
`_handle_transfer_exception` raises `RockletException(message)` *without*
assigning `extra_info` (the `raise … from None` at the ImportError branch
happens before the `exception.extra_info = …` line), so the raised exception
does not carry the transferred `extra_info`. -/
theorem handle_transfer_extra_info_counterexample :
    ¬ ((handle_transfer_exception (fun _ => ClassResolution.importFails) unimportableTransfer).message
          = unimportableTransfer.message
       ∧ (handle_transfer_exception (fun _ => ClassResolution.importFails) unimportableTransfer).extra_info
          = some unimportableTransfer.extra_info) := by
  decide

/-- C5 (amended): for every 511 envelope `_handle_response_errors` raises and
never returns normally, and the raised exception always carries the
transferred message; `extra_info` is attached on every path except the
unimportable-module fallback, which raises `RockletException` with the
transferred message but without `extra_info`. -/
theorem handle_transfer_exception_amended (resolve : String → ClassResolution)
    (t : ExceptionTransfer) (r : RawResponse) :
    (handle_transfer_exception resolve t).message = t.message
  ∧ (resolve t.class_path ≠ ClassResolution.importFails →
      (handle_transfer_exception resolve t).extra_info = some t.extra_info)
  ∧ (resolve t.class_path = ClassResolution.importFails →
      handle_transfer_exception resolve t
        = RaisedException.mk rockletExceptionClass t.message none true)
  ∧ (r.status_code = 511 → raises (handle_response_errors resolve r) = true) := by
  refine ⟨?_, ?_, ?_, ?_⟩
  · unfold handle_transfer_exception
    cases resolve t.class_path <;> rfl
  · intro hne
    unfold handle_transfer_exception
    cases h : resolve t.class_path <;> first | rfl | exact absurd h hne
  · intro he
    unfold handle_transfer_exception
    rw [he]
  · intro h511
    unfold handle_response_errors
    rw [if_pos h511]
    cases r.transfer_body <;> rfl

/-- Witness for C5's amended theorem at concrete resolutions. -/
theorem handle_transfer_exception_amended_witness :
    (handle_transfer_exception (fun _ => ClassResolution.classMissing) unimportableTransfer).extra_info
        = some unimportableTransfer.extra_info
    ∧ handle_transfer_exception (fun _ => ClassResolution.importFails) unimportableTransfer
        = RaisedException.mk rockletExceptionClass unimportableTransfer.message none true
    ∧ raises (handle_response_errors (fun _ => ClassResolution.importFails)
        (RawResponse.mk 511 (some unimportableTransfer))) = true :=
  ⟨(handle_transfer_exception_amended (fun _ => ClassResolution.classMissing) unimportableTransfer
      (RawResponse.mk 511 (some unimportableTransfer))).2.1 (fun h => nomatch h),
   (handle_transfer_exception_amended (fun _ => ClassResolution.importFails) unimportableTransfer
      (RawResponse.mk 511 (some unimportableTransfer))).2.2.1 rfl,
   (handle_transfer_exception_amended (fun _ => ClassResolution.importFails) unimportableTransfer
      (RawResponse.mk 511 (some unimportableTransfer))).2.2.2 rfl⟩

/-- A resolution environment in which `builtins.KeyboardInterrupt` constructs
an instance that `except Exception` does not catch (in CPython it derives
from `BaseException` only), while every other class path rehydrates to an
ordinary `Exception`. -/
def keyboardInterruptResolve : String → ClassResolution := fun class_path =>
  if class_path = "builtins.KeyboardInterrupt" then ClassResolution.constructs false
  else ClassResolution.constructs true

/-- C4 counterexample: a 511 envelope carrying
`class_path="builtins.KeyboardInterrupt"` rehydrates (inside the probe's
`try`) to an exception that neither `except requests.RequestException` nor
`except Exception` catches, so `_is_alive` propagates it instead of
returning an `IsAliveResponse`. -/
theorem is_alive_probe_raises_counterexample :
    ¬ (raises (is_alive_probe keyboardInterruptResolve "http://h" "http://h:8000"
          (ProbeOutcome.transfer
            (ExceptionTransfer.mk "builtins.KeyboardInterrupt" "interrupt" "" []))) = false) := by
  decide

/-- C4 (amended): `_is_alive` returns an `IsAliveResponse` without raising
for every outcome of the HTTP request — 200 bodies, other status codes,
malformed bodies and transport failures, and 511 envelopes whose rehydrated
exception class derives from `Exception`; every transport failure yields
`is_alive=false` with the captured error text.  The single escape is a 511
envelope rehydrating to a class that `except Exception` does not catch
(e.g. `builtins.KeyboardInterrupt`), which the probe propagates. -/
theorem is_alive_probe_amended (resolve : String → ClassResolution)
    (host api_url : String) (o : ProbeOutcome) :
    ((∀ t, o = ProbeOutcome.transfer t →
        (handle_transfer_exception resolve t).isException = true) →
      raises (is_alive_probe resolve host api_url o) = false)
  ∧ (∀ text, o = ProbeOutcome.transportFailure text →
      is_alive_probe resolve host api_url o
        = Except.ok (IsAliveResponse.mk false (connectFailureMessage host text)))
  ∧ (∀ t, o = ProbeOutcome.transfer t →
      (handle_transfer_exception resolve t).isException = false →
        is_alive_probe resolve host api_url o
          = Except.error (handle_transfer_exception resolve t)) := by
  refine ⟨?_, ?_, ?_⟩
  · intro hexc
    cases o with
    | success r => rfl
    | transfer t =>
        simp only [is_alive_probe]
        rw [if_pos (hexc t rfl)]
        rfl
    | otherStatus code detail => rfl
    | malformedBody text => rfl
    | transportFailure text => rfl
  · rintro text rfl
    rfl
  · rintro t rfl hfalse
    simp only [is_alive_probe]
    rw [if_neg (by simp [hfalse])]

/-- Witness for C4's amended theorem at a concrete transport failure. -/
theorem is_alive_probe_amended_witness :
    raises (is_alive_probe (fun _ => ClassResolution.constructs true) "http://h" "http://h:1"
        (ProbeOutcome.transportFailure "connection refused")) = false
    ∧ is_alive_probe (fun _ => ClassResolution.constructs true) "http://h" "http://h:1"
        (ProbeOutcome.transportFailure "connection refused")
      = Except.ok (IsAliveResponse.mk false (connectFailureMessage "http://h" "connection refused")) :=
  ⟨(is_alive_probe_amended (fun _ => ClassResolution.constructs true) "http://h" "http://h:1"
      (ProbeOutcome.transportFailure "connection refused")).1 (fun _ ht => nomatch ht),
   (is_alive_probe_amended (fun _ => ClassResolution.constructs true) "http://h" "http://h:1"
      (ProbeOutcome.transportFailure "connection refused")).2.1 "connection refused" rfl⟩

/-! ### NOHUP launches (C6, C7, C8) -/

/-- C6: when the launcher stdout lacks the PID marker (no PID extracted), the
NOHUP run returns an `Observation` with exit code 1 whose failure reason
starts with `"Failed to submit command"`, and runs no further session command
(no wait, cat, head or stat) for that launch. -/
theorem arun_nohup_pid_extract_failure (env : NohupEnv) (cmd timestamp : String)
    (ignore_output : Bool) (limit : Option Nat)
    (h : env.launch = LaunchOutcome.returned none) :
    (arun_nohup env cmd timestamp ignore_output limit).1.exit_code = 1
    ∧ "Failed to submit command".data
        <+: (arun_nohup env cmd timestamp ignore_output limit).1.failure_reason.data
    ∧ (arun_nohup env cmd timestamp ignore_output limit).2
        = [SessionCommand.launch cmd (nohup_tmp_file timestamp)] := by
  refine ⟨?_, ?_, ?_⟩
  · simp [arun_nohup, h]
  · simp only [arun_nohup, h]
    decide
  · simp [arun_nohup, h]

/-- Witness for C6 at a concrete marker-less launch. -/
theorem arun_nohup_pid_extract_failure_witness :
    (arun_nohup
        (NohupEnv.mk (LaunchOutcome.returned none) true "" (Observation.mk "" 0 "")
          (Observation.mk "" 0 "") (Observation.mk "" 0 ""))
        "echo nopid" "2001" true none).1.exit_code = 1
    ∧ "Failed to submit command".data
        <+: (arun_nohup
              (NohupEnv.mk (LaunchOutcome.returned none) true "" (Observation.mk "" 0 "")
                (Observation.mk "" 0 "") (Observation.mk "" 0 ""))
              "echo nopid" "2001" true none).1.failure_reason.data
    ∧ (arun_nohup
        (NohupEnv.mk (LaunchOutcome.returned none) true "" (Observation.mk "" 0 "")
          (Observation.mk "" 0 "") (Observation.mk "" 0 ""))
        "echo nopid" "2001" true none).2
      = [SessionCommand.launch "echo nopid" (nohup_tmp_file "2001")] :=
  arun_nohup_pid_extract_failure _ "echo nopid" "2001" true none rfl

/-- C7: when the upstream session call raises a read-timeout, the NOHUP run
returns (does not raise) an `Observation` with exit code 1 whose output and
failure reason both contain the string `"timeout"`. -/
theorem arun_nohup_read_timeout (env : NohupEnv) (cmd timestamp : String)
    (ignore_output : Bool) (limit : Option Nat)
    (h : env.launch = LaunchOutcome.readTimeout) :
    (arun_nohup env cmd timestamp ignore_output limit).1.exit_code = 1
    ∧ "timeout".data <:+: (arun_nohup env cmd timestamp ignore_output limit).1.output.data
    ∧ "timeout".data
        <:+: (arun_nohup env cmd timestamp ignore_output limit).1.failure_reason.data := by
  have hinf : "timeout".data <:+: (nohup_timeout_message cmd).data := by
    unfold nohup_timeout_message
    rw [String.data_append]
    exact infix_append_left _ (by decide)
  refine ⟨?_, ?_, ?_⟩
  · simp [arun_nohup, h]
  · simp only [arun_nohup, h]
    exact hinf
  · simp only [arun_nohup, h]
    exact hinf

/-- Witness for C7 at a concrete timed-out launch. -/
theorem arun_nohup_read_timeout_witness :
    (arun_nohup
        (NohupEnv.mk LaunchOutcome.readTimeout true "" (Observation.mk "" 0 "")
          (Observation.mk "" 0 "") (Observation.mk "" 0 ""))
        "sleep 1" "2101" false none).1.exit_code = 1
    ∧ "timeout".data
        <:+: (arun_nohup
              (NohupEnv.mk LaunchOutcome.readTimeout true "" (Observation.mk "" 0 "")
                (Observation.mk "" 0 "") (Observation.mk "" 0 ""))
              "sleep 1" "2101" false none).1.output.data
    ∧ "timeout".data
        <:+: (arun_nohup
              (NohupEnv.mk LaunchOutcome.readTimeout true "" (Observation.mk "" 0 "")
                (Observation.mk "" 0 "") (Observation.mk "" 0 ""))
              "sleep 1" "2101" false none).1.failure_reason.data :=
  arun_nohup_read_timeout _ "sleep 1" "2101" false none rfl

theorem tmp_file_infix_hint (timestamp : String) :
    (nohup_tmp_file timestamp).data <:+: (nohupIgnoreHint (nohup_tmp_file timestamp)).data := by
  unfold nohupIgnoreHint
  rw [String.data_append, String.data_append]
  exact infix_append_right _ (infix_append_left _ (infix_refl' _))

theorem no_size_line_in_hint (timestamp : String)
    (hts : ∀ c ∈ timestamp.data, c.isDigit = true) :
    ¬ ("File size:".data <:+: (nohupIgnoreHint (nohup_tmp_file timestamp)).data) := by
  intro hinf
  have hF : ('F' : Char) ∈ (nohupIgnoreHint (nohup_tmp_file timestamp)).data :=
    mem_of_infix hinf (by decide)
  simp only [nohupIgnoreHint, nohup_tmp_file, String.data_append, List.mem_append] at hF
  rcases hF with h1 | (h2 | (h3 | h4)) | h5
  · exact absurd h1 (by decide)
  · exact absurd h2 (by decide)
  · have := hts 'F' h3
    exact absurd this (by decide)
  · exact absurd h4 (by decide)
  · exact absurd h5 (by decide)

theorem size_line_infix (base : String) (size : Nat) :
    ("File size: " ++ humanReadableSize size).data
      <:+: (base ++ ("\nFile size: " ++ humanReadableSize size)).data := by
  rw [String.data_append, String.data_append, String.data_append,
    show ("\nFile size: ").data = '\n' :: ("File size: ").data from rfl]
  exact ⟨base.data ++ ['\n'], [], by simp⟩

/-- C8: an Ignore-mode NOHUP run (successful wait) skips the log content: its
output is the hint naming `/tmp/tmp_<ns-timestamp>.out`; when the `stat`
succeeds with size `n` the output also carries the human-readable
`File size:` line for `n`, and when the `stat` fails the size line is
omitted while the exit code is still 0; in both cases only the launcher,
the wait poll and the `stat` run — no `cat` and no `head`. -/
theorem arun_nohup_ignore_output_spec (timestamp : String)
    (hts : ∀ c ∈ timestamp.data, c.isDigit = true) (cmd : String) :
    (∀ (env : NohupEnv) (pid : Nat) (size : Nat),
      env.launch = LaunchOutcome.returned (some pid) →
      env.waitSuccess = true →
      parseStatSize env.statResult = some size →
      (arun_nohup env cmd timestamp true none).1.output
          = nohupIgnoreHint (nohup_tmp_file timestamp)
              ++ ("\nFile size: " ++ humanReadableSize size)
        ∧ (nohup_tmp_file timestamp).data
            <:+: (arun_nohup env cmd timestamp true none).1.output.data
        ∧ ("File size: " ++ humanReadableSize size).data
            <:+: (arun_nohup env cmd timestamp true none).1.output.data
        ∧ (arun_nohup env cmd timestamp true none).1.exit_code = 0
        ∧ (arun_nohup env cmd timestamp true none).2
            = [SessionCommand.launch cmd (nohup_tmp_file timestamp),
               SessionCommand.waitPoll pid,
               SessionCommand.statFile (nohup_tmp_file timestamp)])
  ∧ (∀ (env : NohupEnv) (pid : Nat),
      env.launch = LaunchOutcome.returned (some pid) →
      env.waitSuccess = true →
      parseStatSize env.statResult = none →
      (arun_nohup env cmd timestamp true none).1.output
          = nohupIgnoreHint (nohup_tmp_file timestamp)
        ∧ (nohup_tmp_file timestamp).data
            <:+: (arun_nohup env cmd timestamp true none).1.output.data
        ∧ ¬ ("File size:".data <:+: (arun_nohup env cmd timestamp true none).1.output.data)
        ∧ (arun_nohup env cmd timestamp true none).1.exit_code = 0
        ∧ (arun_nohup env cmd timestamp true none).2
            = [SessionCommand.launch cmd (nohup_tmp_file timestamp),
               SessionCommand.waitPoll pid,
               SessionCommand.statFile (nohup_tmp_file timestamp)]) := by
  constructor
  · intro env pid size hl hw hstat
    refine ⟨?_, ?_, ?_, ?_, ?_⟩
    · simp [arun_nohup, hl, handle_nohup_output, hw, hstat]
    · simp only [arun_nohup, hl, handle_nohup_output, hw, hstat, if_true]
      rw [String.data_append]
      exact infix_append_left _ (tmp_file_infix_hint timestamp)
    · simp only [arun_nohup, hl, handle_nohup_output, hw, hstat, if_true]
      exact size_line_infix _ size
    · simp [arun_nohup, hl, handle_nohup_output, hw, hstat]
    · simp [arun_nohup, hl, handle_nohup_output, hw, hstat]
  · intro env pid hl hw hstat
    refine ⟨?_, ?_, ?_, ?_, ?_⟩
    · simp [arun_nohup, hl, handle_nohup_output, hw, hstat]
    · simp only [arun_nohup, hl, handle_nohup_output, hw, hstat, if_true]
      exact tmp_file_infix_hint timestamp
    · simp only [arun_nohup, hl, handle_nohup_output, hw, hstat, if_true]
      exact no_size_line_in_hint timestamp hts
    · simp [arun_nohup, hl, handle_nohup_output, hw, hstat]
    · simp [arun_nohup, hl, handle_nohup_output, hw, hstat]

/-- Witness for C8 at the unit tests' concrete inputs (timestamp 1903,
stat 2048 and a failing stat). -/
theorem arun_nohup_ignore_output_spec_witness :
    ((arun_nohup
        (NohupEnv.mk (LaunchOutcome.returned (some 12345)) true "done"
          (Observation.mk "2048" 0 "") (Observation.mk "" 0 "") (Observation.mk "" 0 ""))
        "echo detached" "1903" true none).1.output
        = nohupIgnoreHint (nohup_tmp_file "1903") ++ ("\nFile size: " ++ humanReadableSize 2048)
      ∧ (nohup_tmp_file "1903").data
          <:+: (arun_nohup
                (NohupEnv.mk (LaunchOutcome.returned (some 12345)) true "done"
                  (Observation.mk "2048" 0 "") (Observation.mk "" 0 "") (Observation.mk "" 0 ""))
                "echo detached" "1903" true none).1.output.data
      ∧ ("File size: " ++ humanReadableSize 2048).data
          <:+: (arun_nohup
                (NohupEnv.mk (LaunchOutcome.returned (some 12345)) true "done"
                  (Observation.mk "2048" 0 "") (Observation.mk "" 0 "") (Observation.mk "" 0 ""))
                "echo detached" "1903" true none).1.output.data
      ∧ (arun_nohup
          (NohupEnv.mk (LaunchOutcome.returned (some 12345)) true "done"
            (Observation.mk "2048" 0 "") (Observation.mk "" 0 "") (Observation.mk "" 0 ""))
          "echo detached" "1903" true none).1.exit_code = 0
      ∧ (arun_nohup
          (NohupEnv.mk (LaunchOutcome.returned (some 12345)) true "done"
            (Observation.mk "2048" 0 "") (Observation.mk "" 0 "") (Observation.mk "" 0 ""))
          "echo detached" "1903" true none).2
          = [SessionCommand.launch "echo detached" (nohup_tmp_file "1903"),
             SessionCommand.waitPoll 12345,
             SessionCommand.statFile (nohup_tmp_file "1903")])
    ∧ ¬ ("File size:".data
          <:+: (arun_nohup
                (NohupEnv.mk (LaunchOutcome.returned (some 222)) true "done"
                  (Observation.mk "n/a" 1 "") (Observation.mk "" 0 "") (Observation.mk "" 0 ""))
                "echo ignore" "1903" true none).1.output.data) :=
  ⟨(arun_nohup_ignore_output_spec "1903" (by decide) "echo detached").1
      (NohupEnv.mk (LaunchOutcome.returned (some 12345)) true "done"
        (Observation.mk "2048" 0 "") (Observation.mk "" 0 "") (Observation.mk "" 0 ""))
      12345 2048 rfl rfl (by decide),
   ((arun_nohup_ignore_output_spec "1903" (by decide) "echo ignore").2
      (NohupEnv.mk (LaunchOutcome.returned (some 222)) true "done"
        (Observation.mk "n/a" 1 "") (Observation.mk "" 0 "") (Observation.mk "" 0 ""))
      222 rfl rfl (by decide)).2.2.1⟩

/-! ### Memory-size parsing (C2) -/

theorem isDigit_toNat_bounds (c : Char) (h : c.isDigit = true) :
    48 ≤ c.toNat ∧ c.toNat ≤ 57 := by
  unfold Char.isDigit at h
  simp only [Bool.and_eq_true, decide_eq_true_eq] at h
  constructor
  · have hx := uint32_le_toNat h.1
    norm_num [UInt32.toNat_ofNat, UInt32.size] at hx
    exact hx
  · have hx := uint32_le_toNat h.2
    norm_num [UInt32.toNat_ofNat, UInt32.size] at hx
    exact hx

theorem toLower_eq_self_of_toNat_lt (c : Char) (h : c.toNat < 65) : c.toLower = c := by
  simp only [Char.toLower]
  rw [if_neg]
  rintro ⟨h1, _⟩
  omega

theorem isDigit_toLower (c : Char) (h : c.isDigit = true) : c.toLower = c :=
  toLower_eq_self_of_toNat_lt c (by have := isDigit_toNat_bounds c h; omega)

theorem isWhitespace_toLower (c : Char) (h : c.isWhitespace = true) : c.toLower = c := by
  unfold Char.isWhitespace at h
  simp only [Bool.or_eq_true, decide_eq_true_eq] at h
  rcases h with ((h | h) | h) | h <;> subst h <;> decide

theorem isDigit_isNumChar (c : Char) (h : c.isDigit = true) : isNumChar c = true := by
  unfold isNumChar
  simp [h]

theorem isNumChar_toLower (c : Char) (h : isNumChar c = true) : c.toLower = c := by
  unfold isNumChar at h
  simp only [Bool.or_eq_true, decide_eq_true_eq] at h
  rcases h with h | h
  · exact isDigit_toLower c h
  · subst h; decide

theorem isDigit_not_ws (c : Char) (h : c.isDigit = true) : c.isWhitespace = false := by
  unfold Char.isWhitespace
  simp only [Bool.or_eq_false_iff, decide_eq_false_iff_not]
  have hb := isDigit_toNat_bounds c h
  refine ⟨⟨⟨?_, ?_⟩, ?_⟩, ?_⟩ <;> intro he <;> subst he <;> revert hb <;> decide

theorem isWhitespace_not_numChar (c : Char) (h : c.isWhitespace = true) :
    isNumChar c = false := by
  unfold Char.isWhitespace at h
  simp only [Bool.or_eq_true, decide_eq_true_eq] at h
  rcases h with ((h | h) | h) | h <;> subst h <;> decide

theorem isAlpha_not_digit (c : Char) (h : c.isAlpha = true) : c.isDigit = false := by
  unfold Char.isAlpha Char.isUpper Char.isLower at h
  unfold Char.isDigit
  simp only [Bool.or_eq_true, Bool.and_eq_true, decide_eq_true_eq] at h
  simp only [Bool.and_eq_false_iff, decide_eq_false_iff_not]
  rcases h with ⟨h1, _⟩ | ⟨h1, _⟩ <;>
    · right
      intro hc
      have x1 := uint32_le_toNat h1
      have x2 := uint32_le_toNat hc
      norm_num [UInt32.toNat_ofNat, UInt32.size] at x1 x2
      omega

theorem isAlpha_not_numChar (c : Char) (h : c.isAlpha = true) : isNumChar c = false := by
  unfold isNumChar
  simp only [Bool.or_eq_false_iff, decide_eq_false_iff_not]
  refine ⟨?_, ?_⟩
  · simp [isAlpha_not_digit c h]
  · intro he
    subst he
    exact absurd h (by decide)

theorem isAlpha_not_ws (c : Char) (h : c.isAlpha = true) : c.isWhitespace = false := by
  unfold Char.isAlpha Char.isUpper Char.isLower at h
  unfold Char.isWhitespace
  simp only [Bool.or_eq_true, Bool.and_eq_true, decide_eq_true_eq] at h
  simp only [Bool.or_eq_false_iff, decide_eq_false_iff_not]
  refine ⟨⟨⟨?_, ?_⟩, ?_⟩, ?_⟩ <;> intro he <;> subst he <;> revert h <;> decide

theorem takeWhile_all_append {p : Char → Bool} (xs ys : List Char)
    (h : ∀ c ∈ xs, p c = true) : (xs ++ ys).takeWhile p = xs ++ ys.takeWhile p := by
  have hx : xs.takeWhile p = xs := List.takeWhile_eq_self_iff.mpr h
  rw [List.takeWhile_append, hx, if_pos rfl]

theorem dropWhile_all_append {p : Char → Bool} (xs ys : List Char)
    (h : ∀ c ∈ xs, p c = true) : (xs ++ ys).dropWhile p = ys.dropWhile p := by
  have hx : xs.dropWhile p = [] := List.dropWhile_eq_nil_iff.mpr h
  rw [List.dropWhile_append, hx]
  simp

theorem takeWhile_nil_of_head {p : Char → Bool} (c : Char) (cs : List Char)
    (h : p c = false) : (c :: cs).takeWhile p = [] := by
  rw [List.takeWhile_cons, if_neg (by simp [h])]

theorem dropWhile_id_of_head {p : Char → Bool} (c : Char) (cs : List Char)
    (h : p c = false) : (c :: cs).dropWhile p = c :: cs := by
  rw [List.dropWhile_cons, if_neg (by simp [h])]

theorem unitMultiplier_head_letter (u : List Char) (m : Nat)
    (hm : unitMultiplier u = some m) :
    u = [] ∨ ∃ c cs, u = c :: cs ∧ (c = 'b' ∨ c = 'k' ∨ c = 'm' ∨ c = 'g' ∨ c = 't') := by
  unfold unitMultiplier at hm
  split_ifs at hm with h1 h2 h3 h4 h5
  · rcases h1 with h | h
    · exact Or.inl h
    · exact Or.inr ⟨'b', [], h, Or.inl rfl⟩
  · rcases h2 with h | h
    · exact Or.inr ⟨'k', [], h, Or.inr (Or.inl rfl)⟩
    · exact Or.inr ⟨'k', ['b'], h, Or.inr (Or.inl rfl)⟩
  · rcases h3 with h | h
    · exact Or.inr ⟨'m', [], h, Or.inr (Or.inr (Or.inl rfl))⟩
    · exact Or.inr ⟨'m', ['b'], h, Or.inr (Or.inr (Or.inl rfl))⟩
  · rcases h4 with h | h
    · exact Or.inr ⟨'g', [], h, Or.inr (Or.inr (Or.inr (Or.inl rfl)))⟩
    · exact Or.inr ⟨'g', ['b'], h, Or.inr (Or.inr (Or.inr (Or.inl rfl)))⟩
  · rcases h5 with h | h
    · exact Or.inr ⟨'t', [], h, Or.inr (Or.inr (Or.inr (Or.inr rfl)))⟩
    · exact Or.inr ⟨'t', ['b'], h, Or.inr (Or.inr (Or.inr (Or.inr rfl)))⟩

theorem unit_shape (us : List Char) (m : Nat)
    (hm : unitMultiplier (us.map Char.toLower) = some m) :
    us = [] ∨ ∃ u0 us', us = u0 :: us' ∧ isNumChar u0 = false ∧ u0.isWhitespace = false := by
  cases us with
  | nil => exact Or.inl rfl
  | cons u0 us' =>
      right
      rcases unitMultiplier_head_letter _ m hm with hnil | ⟨c, cs, hcons, hc⟩
      · simp at hnil
      · simp only [List.map_cons, List.cons.injEq] at hcons
        obtain ⟨hlow, -⟩ := hcons
        refine ⟨u0, us', rfl, ?_, ?_⟩
        · by_contra hn
          rw [Bool.not_eq_false] at hn
          rw [isNumChar_toLower u0 hn] at hlow
          subst hlow
          rcases hc with rfl | rfl | rfl | rfl | rfl <;> exact absurd hn (by decide)
        · by_contra hw
          rw [Bool.not_eq_false] at hw
          rw [isWhitespace_toLower u0 hw] at hlow
          subst hlow
          rcases hc with rfl | rfl | rfl | rfl | rfl <;> exact absurd hw (by decide)

theorem sep_unit_decomp (wsp us : List Char) (hws : ∀ c ∈ wsp, c.isWhitespace = true)
    (hus : us = [] ∨ ∃ u0 us', us = u0 :: us' ∧ isNumChar u0 = false ∧ u0.isWhitespace = false) :
    (wsp ++ us).takeWhile isNumChar = []
    ∧ (wsp ++ us).dropWhile isNumChar = wsp ++ us
    ∧ (wsp ++ us).dropWhile Char.isWhitespace = us := by
  have husT : us.takeWhile isNumChar = [] := by
    rcases hus with rfl | ⟨u0, us', rfl, hn, -⟩
    · rfl
    · exact takeWhile_nil_of_head u0 us' hn
  have husD : us.dropWhile isNumChar = us := by
    rcases hus with rfl | ⟨u0, us', rfl, hn, -⟩
    · rfl
    · exact dropWhile_id_of_head u0 us' hn
  have husW : us.dropWhile Char.isWhitespace = us := by
    rcases hus with rfl | ⟨u0, us', rfl, -, hw⟩
    · rfl
    · exact dropWhile_id_of_head u0 us' hw
  refine ⟨?_, ?_, ?_⟩
  · cases wsp with
    | nil => simpa using husT
    | cons w wsp' =>
        exact takeWhile_nil_of_head w (wsp' ++ us)
          (isWhitespace_not_numChar w (hws w (by simp)))
  · cases wsp with
    | nil => simpa using husD
    | cons w wsp' =>
        exact dropWhile_id_of_head w (wsp' ++ us)
          (isWhitespace_not_numChar w (hws w (by simp)))
  · rw [dropWhile_all_append wsp us hws, husW]

theorem validNumber_digits (digits : List Char) (hd : digits ≠ [])
    (hdall : ∀ c ∈ digits, c.isDigit = true) : validNumber digits = true := by
  unfold validNumber
  rw [List.takeWhile_eq_self_iff.mpr hdall, List.dropWhile_eq_nil_iff.mpr hdall]
  simp [hd]

theorem validNumber_frac (digits frac : List Char) (hd : digits ≠ []) (hf : frac ≠ [])
    (hdall : ∀ c ∈ digits, c.isDigit = true) (hfall : ∀ c ∈ frac, c.isDigit = true) :
    validNumber (digits ++ '.' :: frac) = true := by
  unfold validNumber
  rw [takeWhile_all_append digits ('.' :: frac) hdall,
      takeWhile_nil_of_head '.' frac (by decide),
      dropWhile_all_append digits ('.' :: frac) hdall,
      dropWhile_id_of_head '.' frac (by decide)]
  simp [hd, hf, List.all_eq_true.mpr hfall]

theorem memValue_digits (digits : List Char) (hdall : ∀ c ∈ digits, c.isDigit = true)
    (m : Nat) : memValue digits m = digitsToNat digits * m := by
  unfold memValue
  rw [List.takeWhile_eq_self_iff.mpr hdall, List.dropWhile_eq_nil_iff.mpr hdall]
  simp [show digitsToNat [] = 0 from rfl]

theorem memValue_frac (digits frac : List Char) (hdall : ∀ c ∈ digits, c.isDigit = true)
    (m : Nat) :
    memValue (digits ++ '.' :: frac) m
      = digitsToNat digits * m + digitsToNat frac * m / 10 ^ frac.length := by
  unfold memValue
  rw [takeWhile_all_append digits ('.' :: frac) hdall,
      takeWhile_nil_of_head '.' frac (by decide),
      dropWhile_all_append digits ('.' :: frac) hdall,
      dropWhile_id_of_head '.' frac (by decide)]
  simp

theorem parse_chars_number_unit (digits wsp us : List Char) (m : Nat) (hd : digits ≠ [])
    (hdall : ∀ c ∈ digits, c.isDigit = true) (hws : ∀ c ∈ wsp, c.isWhitespace = true)
    (hm : unitMultiplier (us.map Char.toLower) = some m) :
    parse_memory_size_chars (digits ++ (wsp ++ us)) = Except.ok (digitsToNat digits * m) := by
  have hnall : ∀ c ∈ digits, isNumChar c = true := fun c hc => isDigit_isNumChar c (hdall c hc)
  have hs := sep_unit_decomp wsp us hws (unit_shape us m hm)
  simp only [parse_memory_size_chars]
  rw [takeWhile_all_append digits (wsp ++ us) hnall, hs.1,
      dropWhile_all_append digits (wsp ++ us) hnall, hs.2.1, hs.2.2, List.append_nil]
  rw [if_neg (by simp [validNumber_digits digits hd hdall]), hm]
  show Except.ok (memValue digits m) = Except.ok (digitsToNat digits * m)
  rw [memValue_digits digits hdall m]

theorem parse_chars_fractional (digits frac wsp us : List Char) (m : Nat) (hd : digits ≠ [])
    (hf : frac ≠ []) (hdall : ∀ c ∈ digits, c.isDigit = true)
    (hfall : ∀ c ∈ frac, c.isDigit = true) (hws : ∀ c ∈ wsp, c.isWhitespace = true)
    (hm : unitMultiplier (us.map Char.toLower) = some m) :
    parse_memory_size_chars (digits ++ ('.' :: (frac ++ (wsp ++ us))))
      = Except.ok (digitsToNat digits * m + digitsToNat frac * m / 10 ^ frac.length) := by
  have hnall : ∀ c ∈ digits, isNumChar c = true := fun c hc => isDigit_isNumChar c (hdall c hc)
  have hfn : ∀ c ∈ frac, isNumChar c = true := fun c hc => isDigit_isNumChar c (hfall c hc)
  have hs := sep_unit_decomp wsp us hws (unit_shape us m hm)
  simp only [parse_memory_size_chars]
  rw [takeWhile_all_append digits ('.' :: (frac ++ (wsp ++ us))) hnall,
      List.takeWhile_cons, if_pos (by decide : isNumChar '.' = true),
      takeWhile_all_append frac (wsp ++ us) hfn, hs.1, List.append_nil,
      dropWhile_all_append digits ('.' :: (frac ++ (wsp ++ us))) hnall,
      List.dropWhile_cons, if_pos (by decide : isNumChar '.' = true),
      dropWhile_all_append frac (wsp ++ us) hfn, hs.2.1, hs.2.2]
  rw [if_neg (by simp [validNumber_frac digits frac hd hf hdall hfall]), hm]
  show Except.ok (memValue (digits ++ '.' :: frac) m)
      = Except.ok (digitsToNat digits * m + digitsToNat frac * m / 10 ^ frac.length)
  rw [memValue_frac digits frac hdall m]

theorem parse_chars_unknown_unit (digits wsp us : List Char) (hd : digits ≠ [])
    (hdall : ∀ c ∈ digits, c.isDigit = true) (hws : ∀ c ∈ wsp, c.isWhitespace = true)
    (hu : us ≠ []) (ha : ∀ c ∈ us, c.isAlpha = true)
    (hm : unitMultiplier (us.map Char.toLower) = none) :
    parse_memory_size_chars (digits ++ (wsp ++ us))
      = Except.error MemParseError.unknownUnit := by
  have hnall : ∀ c ∈ digits, isNumChar c = true := fun c hc => isDigit_isNumChar c (hdall c hc)
  obtain ⟨u0, us', rfl⟩ : ∃ u0 us', us = u0 :: us' := by
    cases us with
    | nil => exact absurd rfl hu
    | cons a l => exact ⟨a, l, rfl⟩
  have hus : (u0 :: us') = [] ∨ ∃ v0 vs', (u0 :: us') = v0 :: vs'
      ∧ isNumChar v0 = false ∧ v0.isWhitespace = false :=
    Or.inr ⟨u0, us', rfl, isAlpha_not_numChar u0 (ha u0 (by simp)),
      isAlpha_not_ws u0 (ha u0 (by simp))⟩
  have hs := sep_unit_decomp wsp (u0 :: us') hws hus
  simp only [parse_memory_size_chars]
  rw [takeWhile_all_append digits (wsp ++ (u0 :: us')) hnall, hs.1,
      dropWhile_all_append digits (wsp ++ (u0 :: us')) hnall, hs.2.1, hs.2.2, List.append_nil]
  rw [if_neg (by simp [validNumber_digits digits hd hdall]), hm,
      List.all_eq_true.mpr ha, if_pos rfl]

/-- C2: `parse_memory_size` accepts exactly the grammar
`<number>[.<number>]?\s*(b|k|m|g|t)(b)?` case-insensitively after trimming:
every nonempty digit run, optionally a dot plus a nonempty digit run,
optional whitespace, and a recognized unit parses to the unit's power-of-1024
multiple with fractional values truncated (exact rational truncation); a bare
number means bytes; the empty string, multiple decimal points and unknown
units are rejected with the invalid-format/unknown-unit errors, and the
spec's boundary cases (`"0"`, `"0.5g"`, whitespace trimming) evaluate as
stated. -/
theorem parse_memory_size_spec :
    (∀ (digits wsp us : List Char) (m : Nat), digits ≠ [] →
        (∀ c ∈ digits, c.isDigit = true) → (∀ c ∈ wsp, c.isWhitespace = true) →
        unitMultiplier (us.map Char.toLower) = some m →
        parse_memory_size_chars (digits ++ (wsp ++ us)) = Except.ok (digitsToNat digits * m))
  ∧ (∀ (digits frac wsp us : List Char) (m : Nat), digits ≠ [] → frac ≠ [] →
        (∀ c ∈ digits, c.isDigit = true) → (∀ c ∈ frac, c.isDigit = true) →
        (∀ c ∈ wsp, c.isWhitespace = true) →
        unitMultiplier (us.map Char.toLower) = some m →
        parse_memory_size_chars (digits ++ ('.' :: (frac ++ (wsp ++ us))))
          = Except.ok (digitsToNat digits * m + digitsToNat frac * m / 10 ^ frac.length))
  ∧ (∀ (digits wsp us : List Char), digits ≠ [] →
        (∀ c ∈ digits, c.isDigit = true) → (∀ c ∈ wsp, c.isWhitespace = true) →
        us ≠ [] → (∀ c ∈ us, c.isAlpha = true) →
        unitMultiplier (us.map Char.toLower) = none →
        parse_memory_size_chars (digits ++ (wsp ++ us))
          = Except.error MemParseError.unknownUnit)
  ∧ parse_memory_size "" = Except.error MemParseError.invalidFormat
  ∧ parse_memory_size "1.2.3k" = Except.error MemParseError.invalidFormat
  ∧ parse_memory_size "abc" = Except.error MemParseError.invalidFormat
  ∧ parse_memory_size "100pb" = Except.error MemParseError.unknownUnit
  ∧ parse_memory_size "0" = Except.ok 0
  ∧ parse_memory_size "0.5g" = Except.ok 536870912
  ∧ parse_memory_size " 1 mb " = Except.ok 1048576
  ∧ parse_memory_size "1KB" = Except.ok 1024 :=
  ⟨fun digits wsp us m => parse_chars_number_unit digits wsp us m,
   fun digits frac wsp us m => parse_chars_fractional digits frac wsp us m,
   fun digits wsp us => parse_chars_unknown_unit digits wsp us,
   rfl, rfl, rfl, rfl, rfl, rfl, rfl, rfl⟩

/-- Witness for C2 at concrete grammar instances (`"2 KB"`, `"0.5g"`,
`"100pb"`). -/
theorem parse_memory_size_spec_witness :
    parse_memory_size_chars (['2'] ++ ([' '] ++ ['K', 'B']))
        = Except.ok (digitsToNat ['2'] * 1024)
    ∧ parse_memory_size_chars (['0'] ++ ('.' :: (['5'] ++ ([] ++ ['g']))))
        = Except.ok (digitsToNat ['0'] * 1024 ^ 3
            + digitsToNat ['5'] * 1024 ^ 3 / 10 ^ (['5'] : List Char).length)
    ∧ parse_memory_size_chars (['1', '0', '0'] ++ ([] ++ ['p', 'b']))
        = Except.error MemParseError.unknownUnit :=
  ⟨parse_memory_size_spec.1 ['2'] [' '] ['K', 'B'] 1024 (by decide) (by decide) (by decide)
      (by decide),
   parse_memory_size_spec.2.1 ['0'] ['5'] [] ['g'] (1024 ^ 3) (by decide) (by decide)
      (by decide) (by decide) (by decide) (by decide),
   parse_memory_size_spec.2.2.1 ['1', '0', '0'] [] ['p', 'b'] (by decide) (by decide)
      (by decide) (by decide) (by decide) (by decide)⟩

end Rock
